import Mathlib

/-!
Shallow embedding of the adaptive location-tracking and geofencing core of
the gqcars_driver repository: the `LocationService` class (source file
`src/unnamed/part_006`, lines 293-1104) and the `GeofencingService` class
(`src/GQCarsDriverApp/services/geofencingService.js`).

Conventions of the embedding:
- JavaScript numbers that carry coordinates, radii and battery levels are
  modelled as rationals (`ℚ`); millisecond clock values (`Date`, `Date.now()`)
  are modelled by their integer millisecond content (`ℤ`).
- The mutable singleton objects become explicit state records threaded
  through the operations; `await`-ed remote calls are modelled by outcome
  oracles (`ℕ → Bool`, attempt index ↦ success) and externally visible side
  effects are recorded in an `Effect` list.
- `Math`-library trigonometry (`calculateDistance`, the haversine formula)
  is floating point in the source; the functions that consume a computed
  distance are parametrised over the distance function `dist`, so every
  theorem below holds for the actual haversine as well as for any other
  distance.
-/

namespace GQCars

/-- A location sample as built in `handleLocationUpdate` /
`getCurrentLocation` (part_006 lines 649-654, 669-679): coordinates,
accuracy and the millisecond timestamp carried by the platform fix.
Payload fields that no modelled operation reads (altitude, speed, heading,
source, batteryLevel) are omitted. -/
structure LocationSample where
  latitude : ℚ
  longitude : ℚ
  accuracy : ℚ
  timestamp : ℤ
deriving DecidableEq, Repr

/-- A cached entry as built in `cacheLocation` (part_006 lines 782-785):
the sample's own fields spread flat, plus a `cachedAt` stamp. -/
structure CachedLocation extends LocationSample where
  cachedAt : ℤ
deriving DecidableEq, Repr

/-- Embeds `cacheLocation` (part_006 lines 781-794): push
`{...locationData, cachedAt: new Date()}` to the tail, then if the buffer
exceeds 100 entries keep only the last 100 (`slice(-100)` = drop from the
head). The fire-and-forget `saveCachedLocations` persistence write mutates
no in-memory state and is not represented. -/
def cacheLocation (cache : List CachedLocation) (loc : LocationSample)
    (now : ℤ) : List CachedLocation :=
  let cache2 := cache ++ [{ toLocationSample := loc, cachedAt := now }]
  if cache2.length > 100 then cache2.drop (cache2.length - 100) else cache2

/-- Abstraction of `removeCachedLocation` (part_006 lines 799-803) for the
remote-write success path: keep the entries whose millisecond timestamp
value differs from the argument's. The source compares
`cached.timestamp !== locationData.timestamp`, which between the
in-session `Date` instances is a reference comparison — modelled exactly
in `DateSemantics` below; on the success path of
`updateDriverLocationInFirebase` the probe is the very object whose spread
was cached, so which entries a removal matches is immaterial to the
theorems stated over this abstraction. -/
def removeCachedLocation (cache : List CachedLocation)
    (loc : LocationSample) : List CachedLocation :=
  cache.filter (fun cached => cached.timestamp ≠ loc.timestamp)

/-- A JavaScript `Date` instance as it lives in the heap during a tracking
session: `ref` is the instance's identity (its allocation reference) and
`ms` the millisecond value it wraps. Strict (in)equality between two
`Date` objects compares references, never the wrapped values. -/
structure DateObject where
  ref : ℕ
  ms : ℤ
deriving DecidableEq, Repr

namespace DateSemantics

/-- A location sample whose `timestamp` field holds the `Date` instance
built by `new Date(location.timestamp)` (part_006 lines 653, 676, 724). -/
structure LocationSample where
  latitude : ℚ
  longitude : ℚ
  accuracy : ℚ
  timestamp : DateObject
deriving DecidableEq, Repr

/-- A cached entry over Date-instance timestamps: the spread in
`cacheLocation` (part_006 line 783) copies the `timestamp` reference
unchanged into the new cache object. -/
structure CachedLocation extends LocationSample where
  cachedAt : ℤ
deriving DecidableEq, Repr

/-- Embeds `removeCachedLocation` (part_006 lines 799-803) over the
in-session representation: `cached.timestamp !== locationData.timestamp`
between two `Date` instances is reference inequality, so an entry is kept
exactly when its timestamp is a different instance from the probe's,
whatever millisecond values either wraps and whatever the other fields
hold. (After a reload from persistence the timestamps are JSON strings,
which `!==` compares by value; that regime is outside this model.) -/
def removeCachedLocation (cache : List CachedLocation)
    (loc : LocationSample) : List CachedLocation :=
  cache.filter (fun cached => cached.timestamp.ref ≠ loc.timestamp.ref)

end DateSemantics

/-- Embeds the interval-selection rule of `adjustTrackingForBattery`
(part_006 lines 450-458), the spec's `BatteryPolicy.computeInterval`:
first matching rule wins. `charging` stands for
`batteryState === Battery.BatteryState.CHARGING`. -/
def computeInterval (batteryLevel : ℚ) (charging : Bool) : ℕ :=
  if batteryLevel < 15/100 then 30000
  else if batteryLevel < 30/100 then 20000
  else if charging then 5000
  else 10000

/-- The analytics accumulator (part_006 lines 319-325). -/
structure Analytics where
  totalDistance : ℚ
  totalTime : ℚ
  averageSpeed : ℚ
  lastLocation : Option LocationSample
  sessionStart : Option ℤ
deriving DecidableEq, Repr

/-- Embeds `updateAnalytics` (part_006 lines 852-883). `dist` stands for
`this.calculateDistance` (lines 957-967, haversine over `Math` trig — see
the module comment on the parametrisation). The Date subtraction
`locationData.timestamp - lastLocation.timestamp` is millisecond
subtraction; the probabilistic `saveAnalytics` persistence write mutates no
in-memory state and is not represented. -/
def updateAnalytics (dist : ℚ → ℚ → ℚ → ℚ → ℚ) (a : Analytics)
    (loc : LocationSample) : Analytics :=
  match a.lastLocation with
  | none => { a with lastLocation := some loc }
  | some last =>
    let distance := dist last.latitude last.longitude loc.latitude loc.longitude
    let timeDiff := ((loc.timestamp - last.timestamp : ℤ) : ℚ) / 1000
    let a2 :=
      if distance > 0 ∧ timeDiff > 0 then
        let td := a.totalDistance + distance
        let tt := a.totalTime + timeDiff
        { a with totalDistance := td, totalTime := tt,
                 averageSpeed := if tt > 0 then td / tt * (36/10) else a.averageSpeed }
      else a
    { a2 with lastLocation := some loc }

/-- Result of one (possibly retried) remote location write: whether some
attempt succeeded, how many attempts ran, the scheduled backoff delays in
milliseconds, and the cache contents afterwards. -/
structure FirebaseWriteResult where
  success : Bool
  attempts : ℕ
  delays : List ℕ
  cachedLocations : List CachedLocation
deriving DecidableEq, Repr

/-- Embeds `updateDriverLocationInFirebase` (part_006 lines 745-776).
`outcome n` is the success of the n-th write attempt on the remote sink;
`attempt` indexes the current one. A missing `driverId` returns without
any action (lines 747-750). On success the sample is removed from the
cache (line 761); on failure with retries left, a retry is scheduled after
a 2000 ms `setTimeout` (lines 766-770, modelled synchronously by its
eventual result, with the delay recorded); when retries are exhausted the
sample is cached (line 773). Every error is caught, so the function is
total and never propagates a failure. -/
def updateDriverLocationInFirebase (outcome : ℕ → Bool)
    (driverId : Option String) (loc : LocationSample) (now : ℤ)
    (cache : List CachedLocation) : ℕ → ℕ → FirebaseWriteResult
  | retries, attempt =>
    if driverId.isNone then
      { success := false, attempts := 0, delays := [], cachedLocations := cache }
    else if outcome attempt then
      { success := true, attempts := 1, delays := [],
        cachedLocations := removeCachedLocation cache loc }
    else
      match retries with
      | 0 =>
        { success := false, attempts := 1, delays := [],
          cachedLocations := cacheLocation cache loc now }
      | r + 1 =>
        let rest := updateDriverLocationInFirebase outcome driverId loc now cache r (attempt + 1)
        { rest with attempts := rest.attempts + 1, delays := 2000 :: rest.delays }

/-- Externally visible side effects of the tracking operations. -/
inductive Effect where
  | remoteForward (loc : LocationSample)
  | cacheAppend (loc : LocationSample)
  | shareWithPassengers (loc : LocationSample)
  | analyticsFlush
  | unsubscribeWatch
  | stopBackgroundTask
  | cacheSync
deriving DecidableEq, Repr

/-- The mutable fields of the `LocationService` singleton that the modelled
operations read or write (part_006 lines 294-331). -/
structure TrackingState where
  watchId : Option ℕ
  isTracking : Bool
  updateInterval : ℤ
  driverId : Option String
  lastUpdateTime : Option ℤ
  batteryLevel : ℚ
  cachedLocations : List CachedLocation
  isOnline : Bool
  syncInProgress : Bool
  sharingEnabled : Bool
  backgroundPermissionGranted : Bool
  currentLocation : Option LocationSample
  analytics : Analytics
deriving DecidableEq, Repr

/-- The throttle test of `handleLocationUpdate` (part_006 line 691):
`!this.lastUpdateTime || (now - this.lastUpdateTime) >= this.updateInterval`.
JavaScript truthiness makes the first disjunct hold both for a never-set
(`null`) value and for the numeric value 0. -/
def throttleOpen (lastUpdateTime : Option ℤ) (updateInterval now : ℤ) : Bool :=
  match lastUpdateTime with
  | none => true
  | some t => t == 0 || decide (now - t ≥ updateInterval)

/-- Embeds `handleLocationUpdate` (part_006 lines 667-708): record the
sample as current, feed the analytics accumulator, evaluate geofence
membership, and — only when the throttle window has elapsed — either
attempt the remote write (online; sharing with passengers when enabled) or
append to the cache (offline), finally advancing `lastUpdateTime`.
The geofence-membership step calls `this.checkGeofences(locationData)`
(line 687). Modelled from the spec: `LocationService.checkGeofences` is
referenced only at that call site and is defined nowhere in the
repository; §4.3 of the spec describes the step as evaluating geofence
membership, delegated to the geofence dispatcher, with no effect on the
tracking session's throttle or cache state, so it is embedded as the
identity on `TrackingState`. -/
def handleLocationUpdate (dist : ℚ → ℚ → ℚ → ℚ → ℚ) (outcome : ℕ → Bool)
    (s : TrackingState) (loc : LocationSample) (now : ℤ) :
    TrackingState × List Effect :=
  let s1 := { s with currentLocation := some loc,
                     analytics := updateAnalytics dist s.analytics loc }
  if throttleOpen s1.lastUpdateTime s1.updateInterval now then
    if s1.isOnline then
      let w := updateDriverLocationInFirebase outcome s1.driverId loc now s1.cachedLocations 3 0
      let shareFx := if s1.sharingEnabled then [Effect.shareWithPassengers loc] else []
      ({ s1 with cachedLocations := w.cachedLocations, lastUpdateTime := some now },
       Effect.remoteForward loc :: shareFx)
    else
      ({ s1 with cachedLocations := cacheLocation s1.cachedLocations loc now,
                 lastUpdateTime := some now },
       [Effect.cacheAppend loc])
  else (s1, [])

/-- Embeds `syncCachedLocations` (part_006 lines 819-847): bail out when a
sync is already running or the cache is empty, otherwise push every cached
entry through `updateDriverLocationInFirebase` with one retry.
`outcome i` is the attempt oracle for the i-th entry of the snapshot. The
batching in groups of five and the one-second pauses only shape timing;
the iteration is modelled as a sequential pass over the snapshot of the
cache taken on entry, threading the evolving cache through each write. The
`syncInProgress` flag is set on entry and cleared in `finally`, leaving no
net state change. -/
def syncCachedLocations (outcome : ℕ → ℕ → Bool) (now : ℤ)
    (s : TrackingState) : TrackingState × List Effect :=
  if s.syncInProgress || s.cachedLocations.isEmpty then (s, [])
  else
    let snapshot := s.cachedLocations
    let final := (List.range snapshot.length).foldl
      (fun cache i =>
        match snapshot.get? i with
        | some c =>
          (updateDriverLocationInFirebase (outcome i) s.driverId
            c.toLocationSample now cache 1 0).cachedLocations
        | none => cache)
      s.cachedLocations
    ({ s with cachedLocations := final }, [Effect.cacheSync])

/-- Embeds `stopTracking` (part_006 lines 603-634): unsubscribe the
foreground watch when one is live, stop the background task when
background permission is held, save the analytics, sync the cache when it
is non-empty, then clear the session fields. None of the steps is guarded
by `isTracking`. -/
def stopTracking (outcome : ℕ → ℕ → Bool) (now : ℤ) (s : TrackingState) :
    TrackingState × List Effect :=
  let p1 :=
    match s.watchId with
    | some _ => ({ s with watchId := none }, [Effect.unsubscribeWatch])
    | none => (s, ([] : List Effect))
  let s1 := p1.1
  let e2 := if s1.backgroundPermissionGranted then [Effect.stopBackgroundTask] else []
  let p4 :=
    if s1.cachedLocations.length > 0 then syncCachedLocations outcome now s1
    else (s1, ([] : List Effect))
  let s5 := { p4.1 with isTracking := false, driverId := none, currentLocation := none,
                        analytics := { p4.1.analytics with sessionStart := none } }
  (s5, p1.2 ++ e2 ++ [Effect.analyticsFlush] ++ p4.2)

/-- The caller-supplied `metadata` object of a geofence registration.
JavaScript objects carry arbitrary keys; only the keys that can collide
with the explicitly written fields of the geofence record are modelled,
each as an optional override (geofencingService.js lines 104-113). -/
structure GeofenceMetadata where
  id : Option String
  type : Option String
  latitude : Option ℚ
  longitude : Option ℚ
  radius : Option ℚ
  createdAt : Option ℤ
deriving DecidableEq, Repr

/-- A metadata object with none of the colliding keys. -/
def emptyMetadata : GeofenceMetadata :=
  ⟨none, none, none, none, none, none⟩

/-- A registered geofence record (geofencingService.js lines 104-113):
`type` is the JavaScript string tag `pickup` / `service_zone` / `custom`. -/
structure Geofence where
  id : String
  type : String
  latitude : ℚ
  longitude : ℚ
  radius : ℚ
  metadata : GeofenceMetadata
  createdAt : ℤ
deriving DecidableEq, Repr

/-- Embeds the object literal built by `addPickupArea` / `addServiceZone` /
`addGeofence` (geofencingService.js lines 104-113, 132-141, 160-169):
`{id, type, latitude, longitude, radius, metadata, createdAt: new Date(),
...metadata}` — the trailing spread re-writes any key of `metadata` over
the explicit fields, later keys winning. -/
def mkGeofenceRecord (id type : String) (latitude longitude radius : ℚ)
    (metadata : GeofenceMetadata) (now : ℤ) : Geofence :=
  { id := metadata.id.getD id,
    type := metadata.type.getD type,
    latitude := metadata.latitude.getD latitude,
    longitude := metadata.longitude.getD longitude,
    radius := metadata.radius.getD radius,
    metadata := metadata,
    createdAt := metadata.createdAt.getD now }

/-- A JavaScript `Map` of geofences, modelled as an insertion-ordered
association list. -/
abbrev GeoMap : Type := List (String × Geofence)

/-- JavaScript `Map.prototype.set`: replace in place when the key is
present (keeping its position), append otherwise. -/
def mapSet (m : GeoMap) (k : String) (v : Geofence) : GeoMap :=
  if m.any (fun p => p.1 == k) then
    m.map (fun p => if p.1 == k then (k, v) else p)
  else m ++ [(k, v)]

/-- JavaScript `Map.prototype.get` as an `Option`. -/
def mapGet (m : GeoMap) (k : String) : Option Geofence :=
  (m.find? (fun p => p.1 == k)).map (fun p => p.2)

/-- JavaScript `Map.prototype.values()` in insertion order. -/
def mapValues (m : GeoMap) : List Geofence :=
  m.map (fun p => p.2)

/-- A region descriptor handed to the platform geofence monitor
(geofencingService.js lines 220-227 and 245-252). -/
structure Region where
  identifier : String
  latitude : ℚ
  longitude : ℚ
  radius : ℚ
  notifyOnEnter : Bool
  notifyOnExit : Bool
deriving DecidableEq, Repr

/-- The region descriptor derived from a geofence record. -/
def toRegion (g : Geofence) : Region :=
  { identifier := g.id, latitude := g.latitude, longitude := g.longitude,
    radius := g.radius, notifyOnEnter := true, notifyOnExit := true }

/-- The mutable fields of the `GeofencingService` singleton
(geofencingService.js lines 32-41), together with `armedRegions`: the
region set currently armed on the platform geofence monitor. Per §6 of the
spec the platform API (`Location.startGeofencingAsync` for one task) has
replace-all semantics, so each arming call replaces the whole set. -/
structure GeofencingState where
  activeGeofences : GeoMap
  pickupAreas : GeoMap
  serviceZones : GeoMap
  isMonitoring : Bool
  driverId : Option String
  armedRegions : List Region
deriving DecidableEq, Repr

/-- The state of the geofencing singleton before any registration. -/
def initialGeofencingState : GeofencingState :=
  { activeGeofences := [], pickupAreas := [], serviceZones := [],
    isMonitoring := false, driverId := none, armedRegions := [] }

/-- Embeds `startMonitoringGeofence` (geofencingService.js lines 217-232):
`Location.startGeofencingAsync(GEOFENCE_TASK, [single region])` — the
platform monitor is re-armed with a one-element array holding only the
given geofence, replacing whatever was armed before. -/
def startMonitoringGeofence (s : GeofencingState) (g : Geofence) :
    GeofencingState :=
  { s with armedRegions := [toRegion g] }

/-- Embeds `startMonitoring` (geofencingService.js lines 58-79): no-op when
already monitoring; otherwise record the driver, raise the flag, and call
`startMonitoringGeofence` for each active geofence in turn. -/
def startMonitoring (s : GeofencingState) (driverId : String) :
    GeofencingState :=
  if s.isMonitoring then s
  else
    let s1 := { s with driverId := some driverId, isMonitoring := true }
    (mapValues s1.activeGeofences).foldl startMonitoringGeofence s1

/-- Embeds `addPickupArea` (geofencingService.js lines 103-126): build the
record, store it under the caller's `id` in both `pickupAreas` and
`activeGeofences`, and re-arm the monitor when monitoring is active. The
`saveCachedGeofences` persistence write mutates no in-memory state and is
not represented. Returns the new state and the returned record. -/
def addPickupArea (s : GeofencingState) (id : String)
    (latitude longitude radius : ℚ) (metadata : GeofenceMetadata)
    (now : ℤ) : GeofencingState × Geofence :=
  let geofence := mkGeofenceRecord id "pickup" latitude longitude radius metadata now
  let s1 := { s with pickupAreas := mapSet s.pickupAreas id geofence,
                     activeGeofences := mapSet s.activeGeofences id geofence }
  let s2 := if s1.isMonitoring then startMonitoringGeofence s1 geofence else s1
  (s2, geofence)

/-- Embeds `addServiceZone` (geofencingService.js lines 131-154), the
service-zone analogue of `addPickupArea`. -/
def addServiceZone (s : GeofencingState) (id : String)
    (latitude longitude radius : ℚ) (metadata : GeofenceMetadata)
    (now : ℤ) : GeofencingState × Geofence :=
  let geofence := mkGeofenceRecord id "service_zone" latitude longitude radius metadata now
  let s1 := { s with serviceZones := mapSet s.serviceZones id geofence,
                     activeGeofences := mapSet s.activeGeofences id geofence }
  let s2 := if s1.isMonitoring then startMonitoringGeofence s1 geofence else s1
  (s2, geofence)

/-- Embeds `addGeofence` (geofencingService.js lines 159-181): a custom
registration that stores only into `activeGeofences`. -/
def addGeofence (s : GeofencingState) (id : String)
    (latitude longitude radius : ℚ) (type : String)
    (metadata : GeofenceMetadata) (now : ℤ) : GeofencingState × Geofence :=
  let geofence := mkGeofenceRecord id type latitude longitude radius metadata now
  let s1 := { s with activeGeofences := mapSet s.activeGeofences id geofence }
  let s2 := if s1.isMonitoring then startMonitoringGeofence s1 geofence else s1
  (s2, geofence)

/-- Embeds `getActiveGeofences` (geofencingService.js lines 449-451). -/
def getActiveGeofences (s : GeofencingState) : List Geofence :=
  mapValues s.activeGeofences

/-- Embeds `getPickupAreas` (geofencingService.js lines 456-458). -/
def getPickupAreas (s : GeofencingState) : List Geofence :=
  mapValues s.pickupAreas

/-- Embeds `getServiceZones` (geofencingService.js lines 463-465). -/
def getServiceZones (s : GeofencingState) : List Geofence :=
  mapValues s.serviceZones

/-- Embeds `getGeofence` (geofencingService.js lines 470-472). -/
def getGeofence (s : GeofencingState) (id : String) : Option Geofence :=
  mapGet s.activeGeofences id

/-- Embeds `checkLocationInGeofences` (geofencingService.js lines 406-425):
scan every active geofence, keep those whose distance to the query point is
at most `radius / 1000` kilometres, and report the distance scaled back to
metres. `dist` stands for `this.calculateDistance` (lines 430-440). -/
def checkLocationInGeofences (dist : ℚ → ℚ → ℚ → ℚ → ℚ)
    (s : GeofencingState) (latitude longitude : ℚ) :
    List (String × Geofence × ℚ) :=
  (s.activeGeofences.filter
    (fun p => dist latitude longitude p.2.latitude p.2.longitude ≤ p.2.radius / 1000)).map
    (fun p => (p.1, p.2, dist latitude longitude p.2.latitude p.2.longitude * 1000))

/-! Helper lemmas about the JavaScript-`Map` model. -/

lemma mapGet_mapSet_self (m : GeoMap) (k : String) (v : Geofence) :
    mapGet (mapSet m k v) k = some v := by
  induction m with
  | nil => simp [mapSet, mapGet]
  | cons a t ih =>
    obtain ⟨a1, a2⟩ := a
    cases ha : (a1 == k) with
    | true =>
      have haa : a1 = k := by simpa using ha
      subst haa
      have h1 : mapSet ((a1, a2) :: t) a1 v
          = (a1, v) :: t.map (fun p => if p.1 == a1 then (a1, v) else p) := by
        simp [mapSet, List.any_cons]
      rw [h1]
      simp [mapGet]
    | false =>
      have haa : ¬a1 = k := by simpa using ha
      cases hany : t.any (fun p => p.1 == k) with
      | true =>
        have hset : mapSet t k v = t.map (fun p => if p.1 == k then (k, v) else p) := by
          simp [mapSet, hany]
        have h1 : mapSet ((a1, a2) :: t) k v
            = (a1, a2) :: t.map (fun p => if p.1 == k then (k, v) else p) := by
          simp [mapSet, List.any_cons, ha, hany, haa]
        rw [h1]
        have h2 : mapGet ((a1, a2) :: t.map (fun p => if p.1 == k then (k, v) else p)) k
            = mapGet (t.map (fun p => if p.1 == k then (k, v) else p)) k := by
          simp [mapGet, List.find?, ha]
        rw [h2, ← hset]
        exact ih
      | false =>
        have hset : mapSet t k v = t ++ [(k, v)] := by
          simp [mapSet, hany]
        have h1 : mapSet ((a1, a2) :: t) k v = (a1, a2) :: (t ++ [(k, v)]) := by
          simp [mapSet, List.any_cons, ha, hany, haa]
        rw [h1]
        have h2 : mapGet ((a1, a2) :: (t ++ [(k, v)])) k = mapGet (t ++ [(k, v)]) k := by
          simp [mapGet, List.find?, ha]
        rw [h2, ← hset]
        exact ih

lemma mapSet_mem_key (m : GeoMap) (k : String) (v : Geofence) :
    ∀ p ∈ mapSet m k v, p.1 = k → p.2 = v := by
  intro p hp hpk
  obtain ⟨p1, p2⟩ := p
  dsimp at hpk
  subst hpk
  unfold mapSet at hp
  split at hp
  · rcases List.mem_map.mp hp with ⟨q, hq, hfq⟩
    cases hq1 : (q.1 == p1) with
    | true =>
      rw [hq1] at hfq
      simp only [if_pos] at hfq
      cases hfq
      rfl
    | false =>
      rw [hq1] at hfq
      simp only [Bool.false_eq_true, if_neg, not_false_iff] at hfq
      subst hfq
      simp at hq1
  · rcases List.mem_append.mp hp with hm | hs
    · rename_i hguard
      exact absurd hm ((by simpa using hguard : ∀ x, (p1, x) ∉ m) p2)
    · simp only [List.mem_singleton, Prod.mk.injEq] at hs
      exact hs.2

lemma addPickupArea_fields (s : GeofencingState) (id : String)
    (lat lon r : ℚ) (m : GeofenceMetadata) (now : ℤ) :
    (addPickupArea s id lat lon r m now).1.pickupAreas
        = mapSet s.pickupAreas id (mkGeofenceRecord id "pickup" lat lon r m now) ∧
    (addPickupArea s id lat lon r m now).1.activeGeofences
        = mapSet s.activeGeofences id (mkGeofenceRecord id "pickup" lat lon r m now) ∧
    (addPickupArea s id lat lon r m now).1.serviceZones = s.serviceZones := by
  by_cases hm2 : s.isMonitoring
  · simp [addPickupArea, startMonitoringGeofence, hm2]
  · simp [addPickupArea, startMonitoringGeofence, hm2]

lemma addServiceZone_fields (s : GeofencingState) (id : String)
    (lat lon r : ℚ) (m : GeofenceMetadata) (now : ℤ) :
    (addServiceZone s id lat lon r m now).1.serviceZones
        = mapSet s.serviceZones id (mkGeofenceRecord id "service_zone" lat lon r m now) ∧
    (addServiceZone s id lat lon r m now).1.activeGeofences
        = mapSet s.activeGeofences id (mkGeofenceRecord id "service_zone" lat lon r m now) ∧
    (addServiceZone s id lat lon r m now).1.pickupAreas = s.pickupAreas := by
  by_cases hm2 : s.isMonitoring
  · simp [addServiceZone, startMonitoringGeofence, hm2]
  · simp [addServiceZone, startMonitoringGeofence, hm2]

lemma addGeofence_fields (s : GeofencingState) (id : String)
    (lat lon r : ℚ) (type : String) (m : GeofenceMetadata) (now : ℤ) :
    (addGeofence s id lat lon r type m now).1.activeGeofences
        = mapSet s.activeGeofences id (mkGeofenceRecord id type lat lon r m now) ∧
    (addGeofence s id lat lon r type m now).1.pickupAreas = s.pickupAreas ∧
    (addGeofence s id lat lon r type m now).1.serviceZones = s.serviceZones := by
  by_cases hm2 : s.isMonitoring
  · simp [addGeofence, startMonitoringGeofence, hm2]
  · simp [addGeofence, startMonitoringGeofence, hm2]

/-- C3 counterexample: at battery level 0.20 with charging, the interval is
20000 ms, not the 5000 ms the claim asserts for every charging level of at
least 0.15 — the 0.30 low-battery band also precedes the charging rule. -/
theorem computeInterval_charging_midband_counterexample :
    computeInterval (1/5) true = 20000 ∧
    computeInterval (1/5) true ≠ 5000 ∧
    ¬((1/5 : ℚ) < 15/100) := by
  refine ⟨by norm_num [computeInterval], by norm_num [computeInterval], by norm_num⟩

/-- C3 (amended): the charging rule yields 5000 ms only when neither
low-battery band applies: for every battery level b, charging gives 30000
when b < 0.15, 20000 when 0.15 ≤ b < 0.30, and 5000 otherwise; the claim's
scenario values 0.50 discharging ↦ 10000, 0.10 charging ↦ 30000 and 0.80
charging ↦ 5000 all hold. -/
theorem computeInterval_rule_order (b : ℚ) :
    computeInterval b true
      = (if b < 15/100 then 30000 else if b < 30/100 then 20000 else 5000) ∧
    computeInterval (1/2) false = 10000 ∧
    computeInterval (1/10) true = 30000 ∧
    computeInterval (4/5) true = 5000 := by
  refine ⟨?_, by norm_num [computeInterval], by norm_num [computeInterval],
    by norm_num [computeInterval]⟩
  unfold computeInterval
  split
  · rfl
  · split <;> rfl

/-- C9 counterexample: in-session timestamps are `Date` instances and
`!==` compares references, so a removal probe wrapping millisecond value 5
in a fresh instance (reference 3) deletes neither cached entry, although
both entries' timestamps (distinct instances, references 1 and 2) wrap the
same millisecond value 5 — removal does not match by timestamp value, and
one removal does not delete two value-sharing entries. -/
theorem removeCachedLocation_value_match_counterexample :
    DateSemantics.removeCachedLocation
        [⟨⟨0, 0, 0, ⟨1, 5⟩⟩, 50⟩, ⟨⟨1, 2, 3, ⟨2, 5⟩⟩, 51⟩] ⟨9, 9, 9, ⟨3, 5⟩⟩
      = [⟨⟨0, 0, 0, ⟨1, 5⟩⟩, 50⟩, ⟨⟨1, 2, 3, ⟨2, 5⟩⟩, 51⟩] ∧
    (⟨⟨0, 0, 0, ⟨1, 5⟩⟩, 50⟩ : DateSemantics.CachedLocation).timestamp.ms
      = (⟨9, 9, 9, ⟨3, 5⟩⟩ : DateSemantics.LocationSample).timestamp.ms ∧
    (⟨⟨1, 2, 3, ⟨2, 5⟩⟩, 51⟩ : DateSemantics.CachedLocation).timestamp.ms
      = (⟨9, 9, 9, ⟨3, 5⟩⟩ : DateSemantics.LocationSample).timestamp.ms := by
  exact ⟨by decide, rfl, rfl⟩

/-- C9 (amended): cache removal matches by timestamp identity, not value
equality — an entry survives `removeCachedLocation` exactly when its
timestamp is a different `Date` instance from the probe's, every other
field ignored; all entries carrying the very instance the probe carries
(as when the same sample object was cached twice) are deleted by one
removal, while entries wrapping merely equal millisecond values in other
instances survive. Concretely, a probe carrying instance 1 deletes the two
entries sharing instance 1 (with different coordinates) and keeps the
entry whose timestamp is instance 2 even though it wraps the same
millisecond value 5. -/
theorem removeCachedLocation_reference_semantics :
    (∀ (cache : List DateSemantics.CachedLocation)
        (loc : DateSemantics.LocationSample) (c : DateSemantics.CachedLocation),
        c ∈ DateSemantics.removeCachedLocation cache loc
          ↔ c ∈ cache ∧ c.timestamp.ref ≠ loc.timestamp.ref) ∧
    DateSemantics.removeCachedLocation
        [⟨⟨0, 0, 0, ⟨1, 5⟩⟩, 50⟩, ⟨⟨1, 2, 3, ⟨1, 5⟩⟩, 51⟩, ⟨⟨4, 4, 4, ⟨2, 5⟩⟩, 52⟩]
        ⟨9, 9, 9, ⟨1, 5⟩⟩
      = [⟨⟨4, 4, 4, ⟨2, 5⟩⟩, 52⟩] := by
  constructor
  · intro cache loc c
    simp [DateSemantics.removeCachedLocation, List.mem_filter]
  · decide

/-- C9 witness: the identity characterisation instantiated at a concrete
cache, probe and entry. -/
theorem removeCachedLocation_reference_semantics_witness :
    (⟨⟨4, 4, 4, ⟨2, 6⟩⟩, 52⟩ : DateSemantics.CachedLocation)
        ∈ DateSemantics.removeCachedLocation
            [⟨⟨0, 0, 0, ⟨1, 5⟩⟩, 50⟩, ⟨⟨4, 4, 4, ⟨2, 6⟩⟩, 52⟩] ⟨9, 9, 9, ⟨1, 5⟩⟩
      ↔ (⟨⟨4, 4, 4, ⟨2, 6⟩⟩, 52⟩ : DateSemantics.CachedLocation)
            ∈ [(⟨⟨0, 0, 0, ⟨1, 5⟩⟩, 50⟩ : DateSemantics.CachedLocation),
               ⟨⟨4, 4, 4, ⟨2, 6⟩⟩, 52⟩]
          ∧ (2 : ℕ) ≠ 1 :=
  removeCachedLocation_reference_semantics.1
    [⟨⟨0, 0, 0, ⟨1, 5⟩⟩, 50⟩, ⟨⟨4, 4, 4, ⟨2, 6⟩⟩, 52⟩] ⟨9, 9, 9, ⟨1, 5⟩⟩
    ⟨⟨4, 4, 4, ⟨2, 6⟩⟩, 52⟩

/-- C10: the trailing `...metadata` spread wins over the explicitly written
fields — for each of the three registration functions the stored and
returned record is `mkGeofenceRecord`, whose id, type, latitude, longitude,
radius and createdAt each take the metadata's value whenever the metadata
object supplies that key. -/
theorem metadata_spread_overrides (s : GeofencingState) (id type : String)
    (lat lon r : ℚ) (m : GeofenceMetadata) (now : ℤ) :
    (addPickupArea s id lat lon r m now).2 = mkGeofenceRecord id "pickup" lat lon r m now ∧
    (addServiceZone s id lat lon r m now).2 = mkGeofenceRecord id "service_zone" lat lon r m now ∧
    (addGeofence s id lat lon r type m now).2 = mkGeofenceRecord id type lat lon r m now ∧
    getGeofence (addGeofence s id lat lon r type m now).1 id
      = some (mkGeofenceRecord id type lat lon r m now) ∧
    (∀ x, m.id = some x → (mkGeofenceRecord id type lat lon r m now).id = x) ∧
    (∀ x, m.type = some x → (mkGeofenceRecord id type lat lon r m now).type = x) ∧
    (∀ x, m.latitude = some x → (mkGeofenceRecord id type lat lon r m now).latitude = x) ∧
    (∀ x, m.longitude = some x → (mkGeofenceRecord id type lat lon r m now).longitude = x) ∧
    (∀ x, m.radius = some x → (mkGeofenceRecord id type lat lon r m now).radius = x) ∧
    (∀ x, m.createdAt = some x → (mkGeofenceRecord id type lat lon r m now).createdAt = x) := by
  refine ⟨rfl, rfl, rfl, ?_, ?_, ?_, ?_, ?_, ?_, ?_⟩
  · rw [getGeofence, (addGeofence_fields s id lat lon r type m now).1]
    exact mapGet_mapSet_self _ _ _
  all_goals intro x hx
  all_goals simp [mkGeofenceRecord, hx]

/-- A metadata object supplying every overridable key, for the C10
witness. -/
def overrideMetadata : GeofenceMetadata :=
  ⟨some "mid", some "mtype", some 7, some 8, some 9, some 11⟩

/-- C10 witness: registering a pickup area with explicit id "orig",
coordinates (1, 2), radius 3 and creation time 4 under `overrideMetadata`
stores the metadata's values instead. -/
theorem metadata_spread_overrides_witness :
    (addPickupArea initialGeofencingState "orig" 1 2 3 overrideMetadata 4).2.latitude = 7 ∧
    (addPickupArea initialGeofencingState "orig" 1 2 3 overrideMetadata 4).2.id = "mid" := by
  obtain ⟨hA, hB, hC, hD, hId, hTy, hLat, hLon, hRad, hCr⟩ :=
    metadata_spread_overrides initialGeofencingState "orig" "pickup" 1 2 3 overrideMetadata 4
  exact ⟨by rw [hA]; exact hLat 7 rfl, by rw [hA]; exact hId "mid" rfl⟩

/-- C7 counterexample: registering id "x" as a pickup area and then
re-registering the same id as a service zone leaves the first definition
visible — `getPickupAreas` still returns the original pickup record (type
"pickup", latitude 0), which differs from the second definition that
`getGeofence` returns, so not every query reflects the second definition
and a trace of the first remains. -/
theorem reregistration_stale_pickup_counterexample :
    getPickupAreas
        (addServiceZone (addPickupArea initialGeofencingState "x" 0 0 100
            emptyMetadata 0).1 "x" 1 1 1000 emptyMetadata 1).1
      = [mkGeofenceRecord "x" "pickup" 0 0 100 emptyMetadata 0] ∧
    getGeofence
        (addServiceZone (addPickupArea initialGeofencingState "x" 0 0 100
            emptyMetadata 0).1 "x" 1 1 1000 emptyMetadata 1).1 "x"
      = some (mkGeofenceRecord "x" "service_zone" 1 1 1000 emptyMetadata 1) ∧
    mkGeofenceRecord "x" "pickup" 0 0 100 emptyMetadata 0
      ≠ mkGeofenceRecord "x" "service_zone" 1 1 1000 emptyMetadata 1 := by
  refine ⟨by decide, by decide, by decide⟩

/-- C7 (amended): re-registration under the same id is last-write-wins for
the active registry — `getGeofence`, the serviceZones map and the
membership scan all report exactly the second definition for that id — but
a cross-type re-registration (pickup then service zone) leaves the first
definition behind in the pickupAreas map, where `getPickupAreas` still
reports it. -/
theorem reregistration_last_write_wins (s : GeofencingState) (id : String)
    (lat1 lon1 r1 : ℚ) (m1 : GeofenceMetadata) (t1 : ℤ)
    (lat2 lon2 r2 : ℚ) (m2 : GeofenceMetadata) (t2 : ℤ)
    (s2 : GeofencingState)
    (hs2 : s2 = (addServiceZone (addPickupArea s id lat1 lon1 r1 m1 t1).1
        id lat2 lon2 r2 m2 t2).1) :
    getGeofence s2 id = some (mkGeofenceRecord id "service_zone" lat2 lon2 r2 m2 t2) ∧
    mapGet s2.serviceZones id = some (mkGeofenceRecord id "service_zone" lat2 lon2 r2 m2 t2) ∧
    mapGet s2.pickupAreas id = some (mkGeofenceRecord id "pickup" lat1 lon1 r1 m1 t1) ∧
    (∀ (dist : ℚ → ℚ → ℚ → ℚ → ℚ) (lat lon : ℚ) p,
        p ∈ checkLocationInGeofences dist s2 lat lon → p.1 = id →
        p.2.1 = mkGeofenceRecord id "service_zone" lat2 lon2 r2 m2 t2) := by
  subst hs2
  obtain ⟨hp1, ha1, hz1⟩ := addPickupArea_fields s id lat1 lon1 r1 m1 t1
  obtain ⟨hz2, ha2, hp2⟩ := addServiceZone_fields
    (addPickupArea s id lat1 lon1 r1 m1 t1).1 id lat2 lon2 r2 m2 t2
  refine ⟨?_, ?_, ?_, ?_⟩
  · rw [getGeofence, ha2]
    exact mapGet_mapSet_self _ _ _
  · rw [hz2]
    exact mapGet_mapSet_self _ _ _
  · rw [hp2, hp1]
    exact mapGet_mapSet_self _ _ _
  · intro dist lat lon p hp hpid
    rcases List.mem_map.mp hp with ⟨q, hq, hpq⟩
    have hqmem := List.mem_of_mem_filter hq
    rw [ha2] at hqmem
    have hq1 : q.1 = id := by rw [← hpq] at hpid; exact hpid
    have := mapSet_mem_key _ _ _ q hqmem hq1
    rw [← hpq]
    exact this

/-- C7 witness: the last-write-wins theorem instantiated at the concrete
double registration of id "x". -/
theorem reregistration_last_write_wins_witness :
    getGeofence
        (addServiceZone (addPickupArea initialGeofencingState "x" 0 0 100
            emptyMetadata 0).1 "x" 1 1 1000 emptyMetadata 1).1 "x"
      = some (mkGeofenceRecord "x" "service_zone" 1 1 1000 emptyMetadata 1) ∧
    mapGet
        (addServiceZone (addPickupArea initialGeofencingState "x" 0 0 100
            emptyMetadata 0).1 "x" 1 1 1000 emptyMetadata 1).1.pickupAreas "x"
      = some (mkGeofenceRecord "x" "pickup" 0 0 100 emptyMetadata 0) := by
  obtain ⟨h1, h2, h3, h4⟩ :=
    reregistration_last_write_wins initialGeofencingState "x" 0 0 100
      emptyMetadata 0 1 1 1000 emptyMetadata 1 _ rfl
  exact ⟨h1, h3⟩

/-- C1: while monitoring is active, each registration re-arms the platform
monitor (replace-all semantics) with a one-element array holding only the
new region, so previously registered regions stop being monitored. At the
failing input — register "a", start monitoring, then register "b" — the
active set holds regions "a" and "b" but the armed set is exactly
["b"], not the full active set the claim (and the code's own
"Start monitoring all active geofences" loop and full-set
`restartMonitoring`) intend. -/
theorem geofence_rearm_drops_existing_regions :
    ((addGeofence (startMonitoring (addGeofence initialGeofencingState "a" 0 0 100
        "custom" emptyMetadata 0).1 "d1") "b" 1 1 50 "custom" emptyMetadata 1).1).isMonitoring
      = true ∧
    (getActiveGeofences ((addGeofence (startMonitoring (addGeofence initialGeofencingState
        "a" 0 0 100 "custom" emptyMetadata 0).1 "d1") "b" 1 1 50 "custom"
        emptyMetadata 1).1)).map toRegion
      = [toRegion (mkGeofenceRecord "a" "custom" 0 0 100 emptyMetadata 0),
         toRegion (mkGeofenceRecord "b" "custom" 1 1 50 emptyMetadata 1)] ∧
    ((addGeofence (startMonitoring (addGeofence initialGeofencingState "a" 0 0 100
        "custom" emptyMetadata 0).1 "d1") "b" 1 1 50 "custom" emptyMetadata 1).1).armedRegions
      = [toRegion (mkGeofenceRecord "b" "custom" 1 1 50 emptyMetadata 1)] ∧
    ((addGeofence (startMonitoring (addGeofence initialGeofencingState "a" 0 0 100
        "custom" emptyMetadata 0).1 "d1") "b" 1 1 50 "custom" emptyMetadata 1).1).armedRegions
      ≠ (getActiveGeofences ((addGeofence (startMonitoring (addGeofence initialGeofencingState
        "a" 0 0 100 "custom" emptyMetadata 0).1 "d1") "b" 1 1 50 "custom"
        emptyMetadata 1).1)).map toRegion := by
  refine ⟨by decide, by decide, by decide, by decide⟩

/-- A run of `cacheLocation` appends starting from the empty cache; each
element pairs the appended sample with its `new Date()` caching time. -/
def appendRun (l : List (LocationSample × ℤ)) : List CachedLocation :=
  l.foldl (fun c p => cacheLocation c p.1 p.2) []

/-- The cached entry a single append would create. -/
def asCached (p : LocationSample × ℤ) : CachedLocation :=
  { toLocationSample := p.1, cachedAt := p.2 }

lemma appendRun_eq (l : List (LocationSample × ℤ)) :
    appendRun l = (l.map asCached).drop (l.length - 100) := by
  induction l using List.reverseRecOn with
  | nil => simp [appendRun]
  | append_singleton l p ih =>
    have hstep : appendRun (l ++ [p]) = cacheLocation (appendRun l) p.1 p.2 := by
      simp [appendRun, List.foldl_append]
    rw [hstep, ih]
    have hcons : ((l ++ [p]).map asCached) = l.map asCached ++ [asCached p] := by
      simp
    rw [hcons]
    unfold cacheLocation
    rw [show ({ toLocationSample := p.1, cachedAt := p.2 } : CachedLocation) = asCached p from rfl]
    have hL : (l.map asCached).length = l.length := by simp
    by_cases hlen : l.length < 100
    · rw [Nat.sub_eq_zero_of_le (by omega), List.drop_zero]
      rw [if_neg (by simp [hL]; omega)]
      rw [Nat.sub_eq_zero_of_le (by simp; omega), List.drop_zero]
    · have h100 : 100 ≤ l.length := by omega
      have hdlen : ((l.map asCached).drop (l.length - 100)).length = 100 := by
        simp [hL]; omega
      rw [if_pos (by simp [hdlen])]
      have hx2 : ((l.map asCached).drop (l.length - 100) ++ [asCached p]).length - 100 = 1 := by
        simp [hdlen]
      rw [hx2]
      rw [List.drop_append_eq_append_drop, List.drop_drop]
      rw [show (1 : ℕ) - ((l.map asCached).drop (l.length - 100)).length = 0 by
        rw [hdlen]]
      rw [List.drop_zero]
      rw [show l.length - 100 + 1 = (l ++ [p]).length - 100 by simp; omega]
      rw [List.drop_append_eq_append_drop]
      rw [show (l ++ [p]).length - 100 - (l.map asCached).length = 0 by
        simp [hL]]
      rw [List.drop_zero]

set_option maxRecDepth 8000 in
/-- C2: the cache is a 100-bounded FIFO — for every sequence of appends
from the empty cache, after each append the cache holds at most 100
entries, namely exactly the most recently appended ones in original
relative order (the drop-from-the-head suffix of the full append list);
appending 101 samples with timestamps 1..101 leaves exactly the samples
with timestamps 2..101. -/
theorem cacheLocation_bounded_fifo :
    (∀ l : List (LocationSample × ℤ),
        (appendRun l).length ≤ 100 ∧
        appendRun l = (l.map asCached).drop (l.length - 100)) ∧
    (appendRun ((List.range 101).map
          (fun i => (⟨0, 0, 0, (i : ℤ) + 1⟩, (0 : ℤ))))).map
        (fun c => c.timestamp)
      = (List.range 100).map (fun i => (i : ℤ) + 2) := by
  constructor
  · intro l
    refine ⟨?_, appendRun_eq l⟩
    rw [appendRun_eq l]
    simp
    omega
  · decide

lemma updateDriverLocationInFirebase_characterization (outcome : ℕ → Bool)
    (d : String) (loc : LocationSample) (now : ℤ) (cache : List CachedLocation) :
    ∀ retries attempt,
      (updateDriverLocationInFirebase outcome (some d) loc now cache retries attempt).delays.length
        ≤ retries ∧
      (∀ x ∈ (updateDriverLocationInFirebase outcome (some d) loc now cache retries attempt).delays,
        x = 2000) ∧
      ((updateDriverLocationInFirebase outcome (some d) loc now cache retries attempt).success = true →
        (updateDriverLocationInFirebase outcome (some d) loc now cache retries attempt).cachedLocations
          = removeCachedLocation cache loc) ∧
      ((updateDriverLocationInFirebase outcome (some d) loc now cache retries attempt).success = false →
        (updateDriverLocationInFirebase outcome (some d) loc now cache retries attempt).attempts
            = retries + 1 ∧
        (updateDriverLocationInFirebase outcome (some d) loc now cache retries attempt).delays
            = List.replicate retries 2000 ∧
        (updateDriverLocationInFirebase outcome (some d) loc now cache retries attempt).cachedLocations
            = cacheLocation cache loc now) := by
  intro retries
  induction retries with
  | zero =>
    intro attempt
    cases ho : outcome attempt with
    | true =>
      simp [updateDriverLocationInFirebase, ho]
    | false =>
      simp [updateDriverLocationInFirebase, ho]
  | succ r ih =>
    intro attempt
    cases ho : outcome attempt with
    | true =>
      simp [updateDriverLocationInFirebase, ho]
    | false =>
      obtain ⟨ihlen, ihall, ihs, ihf⟩ := ih (attempt + 1)
      have hr : updateDriverLocationInFirebase outcome (some d) loc now cache (r + 1) attempt
          = { updateDriverLocationInFirebase outcome (some d) loc now cache r (attempt + 1) with
              attempts := (updateDriverLocationInFirebase outcome (some d) loc now cache r (attempt + 1)).attempts + 1,
              delays := 2000 :: (updateDriverLocationInFirebase outcome (some d) loc now cache r (attempt + 1)).delays } := by
        conv_lhs => rw [updateDriverLocationInFirebase]
        simp [ho]
      rw [hr]
      refine ⟨?_, ?_, ?_, ?_⟩
      · simpa using Nat.succ_le_succ ihlen
      · intro x hx
        rcases List.mem_cons.mp hx with h | h
        · exact h
        · exact ihall x h
      · intro hs
        exact ihs hs
      · intro hf
        obtain ⟨h1, h2, h3⟩ := ihf hf
        refine ⟨by rw [h1], ?_, h3⟩
        rw [h2, List.replicate_succ]

/-- C6: a remote location write is retried up to three times with a fixed
2000 ms backoff per retry; when every attempt fails the run comprises four
attempts and ends by appending the sample to the cache, while a run in
which some attempt succeeds removes the sample's timestamp matches from
the cache and never appends it; the function is total (the failure is
absorbed) and, in `handleLocationUpdate`, even an all-failing write still
advances the throttle clock, so the sampling path proceeds regardless. -/
theorem updateDriverLocationInFirebase_retry_policy (outcome : ℕ → Bool)
    (d : String) (loc : LocationSample) (now : ℤ) (cache : List CachedLocation) :
    (updateDriverLocationInFirebase outcome (some d) loc now cache 3 0).delays.length ≤ 3 ∧
    (∀ x ∈ (updateDriverLocationInFirebase outcome (some d) loc now cache 3 0).delays,
      x = 2000) ∧
    ((updateDriverLocationInFirebase outcome (some d) loc now cache 3 0).success = true →
      (updateDriverLocationInFirebase outcome (some d) loc now cache 3 0).cachedLocations
        = removeCachedLocation cache loc) ∧
    ((updateDriverLocationInFirebase outcome (some d) loc now cache 3 0).success = false →
      (updateDriverLocationInFirebase outcome (some d) loc now cache 3 0).attempts = 4 ∧
      (updateDriverLocationInFirebase outcome (some d) loc now cache 3 0).delays
        = [2000, 2000, 2000] ∧
      (updateDriverLocationInFirebase outcome (some d) loc now cache 3 0).cachedLocations
        = cacheLocation cache loc now) ∧
    (∀ (dist : ℚ → ℚ → ℚ → ℚ → ℚ) (s : TrackingState) (loc2 : LocationSample) (now2 : ℤ),
      s.isOnline = true →
      throttleOpen s.lastUpdateTime s.updateInterval now2 = true →
      (handleLocationUpdate dist outcome s loc2 now2).1.lastUpdateTime = some now2) := by
  obtain ⟨hlen, hall, hs, hf⟩ :=
    updateDriverLocationInFirebase_characterization outcome d loc now cache 3 0
  refine ⟨hlen, hall, hs, fun hfail => ?_, ?_⟩
  · obtain ⟨h1, h2, h3⟩ := hf hfail
    exact ⟨h1, by rw [h2]; rfl, h3⟩
  · intro dist s loc2 now2 hon hth
    simp [handleLocationUpdate, hth, hon]

/-- C6 witness: with a sink on which every attempt fails, the run from an
empty cache makes four attempts, schedules three 2000 ms backoffs, and
ends by caching the sample; with an always-succeeding sink it does not
cache the sample. -/
theorem updateDriverLocationInFirebase_retry_policy_witness :
    (updateDriverLocationInFirebase (fun _ => false) (some "d") ⟨0, 0, 0, 7⟩ 5 [] 3 0).attempts
        = 4 ∧
    (updateDriverLocationInFirebase (fun _ => false) (some "d") ⟨0, 0, 0, 7⟩ 5 [] 3 0).delays
        = [2000, 2000, 2000] ∧
    (updateDriverLocationInFirebase (fun _ => false) (some "d") ⟨0, 0, 0, 7⟩ 5 [] 3 0).cachedLocations
        = cacheLocation [] ⟨0, 0, 0, 7⟩ 5 ∧
    (updateDriverLocationInFirebase (fun _ => true) (some "d") ⟨0, 0, 0, 7⟩ 5 [] 3 0).cachedLocations
        = removeCachedLocation [] ⟨0, 0, 0, 7⟩ := by
  obtain ⟨_, _, _, hfail, _⟩ :=
    updateDriverLocationInFirebase_retry_policy (fun _ => false) "d" ⟨0, 0, 0, 7⟩ 5 []
  obtain ⟨h1, h2, h3⟩ := hfail (by decide)
  obtain ⟨_, _, hsucc, _, _⟩ :=
    updateDriverLocationInFirebase_retry_policy (fun _ => true) "d" ⟨0, 0, 0, 7⟩ 5 []
  exact ⟨h1, h2, h3, hsucc (by decide)⟩

/-- C4: during tracking a delivered foreground sample is forwarded — wrote
to the remote sink, or appended to the cache when offline — only when no
sample has been forwarded yet or the elapsed time since the last forwarded
one is at least the current update interval; a sample inside the throttle
window produces no forward, no cache append, and leaves `lastUpdateTime`
unchanged. The hypothesis excludes a recorded last-forward clock value of
exactly 0, which JavaScript truthiness would treat as "never forwarded";
every reachable state satisfies it because `Date.now()` is positive. -/
theorem handleLocationUpdate_throttle_only_if (dist : ℚ → ℚ → ℚ → ℚ → ℚ)
    (outcome : ℕ → Bool) (s : TrackingState) (loc : LocationSample) (now : ℤ)
    (h0 : ∀ t, s.lastUpdateTime = some t → t ≠ 0) :
    ((Effect.remoteForward loc ∈ (handleLocationUpdate dist outcome s loc now).2 ∨
      Effect.cacheAppend loc ∈ (handleLocationUpdate dist outcome s loc now).2) →
        (s.lastUpdateTime = none ∨
         ∃ t, s.lastUpdateTime = some t ∧ now - t ≥ s.updateInterval)) ∧
    (∀ t, s.lastUpdateTime = some t → now - t < s.updateInterval →
        (handleLocationUpdate dist outcome s loc now).2 = [] ∧
        (handleLocationUpdate dist outcome s loc now).1.lastUpdateTime = s.lastUpdateTime ∧
        (handleLocationUpdate dist outcome s loc now).1.cachedLocations = s.cachedLocations) := by
  cases hth : throttleOpen s.lastUpdateTime s.updateInterval now with
  | false =>
    have hr : handleLocationUpdate dist outcome s loc now
        = ({ s with currentLocation := some loc,
                    analytics := updateAnalytics dist s.analytics loc }, []) := by
      simp [handleLocationUpdate, hth]
    rw [hr]
    constructor
    · rintro (hmem | hmem) <;> simp at hmem
    · intro t ht hlt
      exact ⟨rfl, rfl, rfl⟩
  | true =>
    constructor
    · intro _
      cases hl : s.lastUpdateTime with
      | none => exact Or.inl rfl
      | some t =>
        right
        refine ⟨t, rfl, ?_⟩
        rw [hl] at hth
        simp only [throttleOpen, Bool.or_eq_true, beq_iff_eq] at hth
        rcases hth with ht0 | hge
        · exact absurd ht0 (h0 t hl)
        · exact of_decide_eq_true hge
    · intro t ht hlt
      rw [ht] at hth
      simp only [throttleOpen, Bool.or_eq_true, beq_iff_eq] at hth
      rcases hth with ht0 | hge
      · exact absurd ht0 (h0 t ht)
      · exact absurd (of_decide_eq_true hge) (by omega)

/-- A tracking state inside the throttle window for the C4 witness: the
last forwarded sample was at clock 1000 and the interval is 10000 ms. -/
def throttledState : TrackingState :=
  { watchId := some 1, isTracking := true, updateInterval := 10000,
    driverId := some "d", lastUpdateTime := some 1000, batteryLevel := 1,
    cachedLocations := [], isOnline := true, syncInProgress := false,
    sharingEnabled := false, backgroundPermissionGranted := false,
    currentLocation := none,
    analytics := { totalDistance := 0, totalTime := 0, averageSpeed := 0,
                   lastLocation := none, sessionStart := some 0 } }

/-- C4 witness: a sample delivered at clock 2000, only 1000 ms after the
last forward, produces no effect and leaves the throttle clock and cache
unchanged. -/
theorem handleLocationUpdate_throttle_only_if_witness :
    (handleLocationUpdate (fun _ _ _ _ => 0) (fun _ => true) throttledState
        ⟨0, 0, 0, 2000⟩ 2000).2 = [] ∧
    (handleLocationUpdate (fun _ _ _ _ => 0) (fun _ => true) throttledState
        ⟨0, 0, 0, 2000⟩ 2000).1.lastUpdateTime = some 1000 := by
  have h := handleLocationUpdate_throttle_only_if (fun _ _ _ _ => 0) (fun _ => true)
    throttledState ⟨0, 0, 0, 2000⟩ 2000
    (by intro t ht; rw [show throttledState.lastUpdateTime = some 1000 from rfl] at ht;
        cases ht; decide)
  obtain ⟨he, hlu, hcl⟩ := h.2 1000 rfl (by decide)
  exact ⟨he, by rw [hlu]; rfl⟩

/-- An accumulator with a previous location at time 0 and zeroed totals,
for the C5 counterexample. -/
def analyticsWithLast : Analytics :=
  { totalDistance := 0, totalTime := 0, averageSpeed := 0,
    lastLocation := some ⟨0, 0, 0, 0⟩, sessionStart := none }

/-- C5 counterexample: with a distance function returning 1 km and a
sample one second after the previous location, the accumulator reaches
totalDistance = 1 and totalTime = 1, yet averageSpeed becomes
(1 / 1) · 3.6 = 18/5, not totalDistance / totalTime = 1 as the claim
states — the code scales the quotient by 3.6. -/
theorem updateAnalytics_averageSpeed_counterexample :
    (updateAnalytics (fun _ _ _ _ => 1) analyticsWithLast ⟨1, 1, 0, 1000⟩).totalDistance = 1 ∧
    (updateAnalytics (fun _ _ _ _ => 1) analyticsWithLast ⟨1, 1, 0, 1000⟩).totalTime = 1 ∧
    (updateAnalytics (fun _ _ _ _ => 1) analyticsWithLast ⟨1, 1, 0, 1000⟩).averageSpeed = 18/5 ∧
    (updateAnalytics (fun _ _ _ _ => 1) analyticsWithLast ⟨1, 1, 0, 1000⟩).averageSpeed
      ≠ (updateAnalytics (fun _ _ _ _ => 1) analyticsWithLast ⟨1, 1, 0, 1000⟩).totalDistance
          / (updateAnalytics (fun _ _ _ _ => 1) analyticsWithLast ⟨1, 1, 0, 1000⟩).totalTime := by
  refine ⟨?_, ?_, ?_, ?_⟩ <;> norm_num [updateAnalytics, analyticsWithLast]

/-- C5 (amended): once a previous location exists, an accepted sample with
positive computed distance and positive timestamp delta increases
totalDistance by the distance and totalTime by the delta in seconds and
sets averageSpeed to (totalDistance / totalTime) · 3.6 (the code's km/h
conversion factor); when the distance or the delta is not positive the
totals and averageSpeed are left unchanged; in every case lastLocation
becomes the current sample. -/
theorem updateAnalytics_guarded_update (dist : ℚ → ℚ → ℚ → ℚ → ℚ)
    (a : Analytics) (loc last : LocationSample)
    (hl : a.lastLocation = some last) (hnn : 0 ≤ a.totalTime) :
    (updateAnalytics dist a loc).lastLocation = some loc ∧
    (0 < dist last.latitude last.longitude loc.latitude loc.longitude →
     0 < ((loc.timestamp - last.timestamp : ℤ) : ℚ) / 1000 →
      (updateAnalytics dist a loc).totalDistance
        = a.totalDistance + dist last.latitude last.longitude loc.latitude loc.longitude ∧
      (updateAnalytics dist a loc).totalTime
        = a.totalTime + ((loc.timestamp - last.timestamp : ℤ) : ℚ) / 1000 ∧
      (updateAnalytics dist a loc).averageSpeed
        = (updateAnalytics dist a loc).totalDistance
            / (updateAnalytics dist a loc).totalTime * (36/10)) ∧
    (¬(0 < dist last.latitude last.longitude loc.latitude loc.longitude ∧
       0 < ((loc.timestamp - last.timestamp : ℤ) : ℚ) / 1000) →
      (updateAnalytics dist a loc).totalDistance = a.totalDistance ∧
      (updateAnalytics dist a loc).totalTime = a.totalTime ∧
      (updateAnalytics dist a loc).averageSpeed = a.averageSpeed) := by
  unfold updateAnalytics
  rw [hl]
  dsimp only
  by_cases hcond : dist last.latitude last.longitude loc.latitude loc.longitude > 0
      ∧ ((loc.timestamp - last.timestamp : ℤ) : ℚ) / 1000 > 0
  · have htt : a.totalTime + ((loc.timestamp - last.timestamp : ℤ) : ℚ) / 1000 > 0 := by
      have := hcond.2
      linarith
    rw [if_pos hcond, if_pos htt]
    exact ⟨rfl, fun _ _ => ⟨rfl, rfl, rfl⟩, fun hcon => absurd hcond hcon⟩
  · rw [if_neg hcond]
    exact ⟨rfl, fun hd ht => absurd ⟨hd, ht⟩ hcond, fun _ => ⟨rfl, rfl, rfl⟩⟩

/-- C5 witness: the guarded-update theorem instantiated at the concrete
accumulator and sample of the counterexample, exercising the positive
branch. -/
theorem updateAnalytics_guarded_update_witness :
    (updateAnalytics (fun _ _ _ _ => 1) analyticsWithLast ⟨1, 1, 0, 1000⟩).lastLocation
        = some ⟨1, 1, 0, 1000⟩ ∧
    (updateAnalytics (fun _ _ _ _ => 1) analyticsWithLast ⟨1, 1, 0, 1000⟩).totalDistance
        = analyticsWithLast.totalDistance + 1 := by
  have h := updateAnalytics_guarded_update (fun _ _ _ _ => 1) analyticsWithLast
    ⟨1, 1, 0, 1000⟩ ⟨0, 0, 0, 0⟩ rfl (by norm_num [analyticsWithLast])
  refine ⟨h.1, ?_⟩
  have h2 := (h.2.1 (by norm_num) (by norm_num)).1
  simpa using h2

lemma stopTracking_resets (o : ℕ → ℕ → Bool) (n : ℤ) (s : TrackingState) :
    (stopTracking o n s).1.watchId = none ∧
    (stopTracking o n s).1.isTracking = false ∧
    (stopTracking o n s).1.driverId = none ∧
    (stopTracking o n s).1.currentLocation = none ∧
    (stopTracking o n s).1.analytics.sessionStart = none := by
  unfold stopTracking syncCachedLocations
  cases hw : s.watchId <;> dsimp only <;> split <;> try split
  all_goals simp_all

lemma stopTracking_on_stopped (o2 : ℕ → ℕ → Bool) (n2 : ℤ) (s1 : TrackingState)
    (hw : s1.watchId = none) (hc : s1.cachedLocations = [])
    (hit : s1.isTracking = false) (hd : s1.driverId = none)
    (hcur : s1.currentLocation = none) (hss : s1.analytics.sessionStart = none) :
    stopTracking o2 n2 s1
      = (s1, if s1.backgroundPermissionGranted
             then [Effect.stopBackgroundTask, Effect.analyticsFlush]
             else [Effect.analyticsFlush]) := by
  obtain ⟨w, it, ui, di, lu, bl, cl, io, sp, se, bp, cu, an⟩ := s1
  obtain ⟨td, tt, av, ll, ss⟩ := an
  dsimp only at hw hc hit hd hcur hss ⊢
  subst hw; subst hc; subst hit; subst hd; subst hcur; subst hss
  cases bp <;> simp [stopTracking, syncCachedLocations]

/-- A freshly tracking state with a live watch and an empty cache, for the
C8 counterexample and witness. -/
def activeProbeState : TrackingState :=
  { watchId := some 1, isTracking := true, updateInterval := 10000,
    driverId := some "d", lastUpdateTime := none, batteryLevel := 1,
    cachedLocations := [], isOnline := true, syncInProgress := false,
    sharingEnabled := false, backgroundPermissionGranted := false,
    currentLocation := none,
    analytics := { totalDistance := 0, totalTime := 0, averageSpeed := 0,
                   lastLocation := none, sessionStart := some 0 } }

/-- C8 counterexample: `stopTracking` runs `saveAnalytics` unconditionally,
so the first stop of a tracking session flushes the analytics and a second
stop immediately after flushes them again — the second call's effect list
is exactly another analytics flush, contradicting the claim that the
second call performs no duplicate flush side effects. -/
theorem stopTracking_second_flush_counterexample :
    Effect.analyticsFlush ∈ (stopTracking (fun _ _ => true) 0 activeProbeState).2 ∧
    (stopTracking (fun _ _ => true) 0 (stopTracking (fun _ _ => true) 0 activeProbeState).1).2
      = [Effect.analyticsFlush] := by
  exact ⟨by decide, by decide⟩

/-- C8 (amended): `stopTracking` is idempotent on the session state — when
the first call leaves the cache empty, a second call returns the state
unchanged, performs no cache sync and no watcher unsubscribe, but it does
repeat the analytics flush (and, when background permission is held, the
background-stop call). -/
theorem stopTracking_idempotent_state (o o2 : ℕ → ℕ → Bool) (n n2 : ℤ)
    (s : TrackingState)
    (h : (stopTracking o n s).1.cachedLocations = []) :
    (stopTracking o2 n2 (stopTracking o n s).1).1 = (stopTracking o n s).1 ∧
    Effect.cacheSync ∉ (stopTracking o2 n2 (stopTracking o n s).1).2 ∧
    Effect.unsubscribeWatch ∉ (stopTracking o2 n2 (stopTracking o n s).1).2 ∧
    Effect.analyticsFlush ∈ (stopTracking o2 n2 (stopTracking o n s).1).2 := by
  obtain ⟨hw, hit, hd, hcur, hss⟩ := stopTracking_resets o n s
  have h2 := stopTracking_on_stopped o2 n2 _ hw h hit hd hcur hss
  rw [h2]
  refine ⟨rfl, ?_, ?_, ?_⟩ <;>
    cases hbp : (stopTracking o n s).1.backgroundPermissionGranted <;> simp [hbp]

/-- C8 witness: the idempotence theorem instantiated at the concrete
tracking state with an empty cache. -/
theorem stopTracking_idempotent_state_witness :
    (stopTracking (fun _ _ => true) 0
        (stopTracking (fun _ _ => true) 0 activeProbeState).1).1
      = (stopTracking (fun _ _ => true) 0 activeProbeState).1 ∧
    Effect.analyticsFlush ∈ (stopTracking (fun _ _ => true) 0
        (stopTracking (fun _ _ => true) 0 activeProbeState).1).2 := by
  obtain ⟨h1, h2, h3, h4⟩ := stopTracking_idempotent_state (fun _ _ => true)
    (fun _ _ => true) 0 0 activeProbeState (by decide)
  exact ⟨h1, h4⟩

end GQCars
